import Mathlib

/-!
Shallow embedding of the PME 360 backend's real-time notification core:
the notification persistence service (src/services/notifications.ts) and
the WebSocket gateway with its connection registry
(src/services/websocket.ts).  The relational store is modelled as a list
of notification rows; the ORM calls (findFirst / update / updateMany /
delete / deleteMany / count) become the corresponding list operations.
The WebSocket layer is modelled as explicit state: a client registry
(user id → connection id) plus a connection table recording each
socket's ready state, close code and sent frames.
-/

namespace PME360

/-- The NotificationType enum of the schema
(MESSAGE | CONNECTION_REQUEST | OPPORTUNITY_MATCH | APPLICATION_UPDATE
| EVENT_REMINDER | SYSTEM). -/
inductive NotifType where
  | MESSAGE
  | CONNECTION_REQUEST
  | OPPORTUNITY_MATCH
  | APPLICATION_UPDATE
  | EVENT_REMINDER
  | SYSTEM
  deriving DecidableEq, Repr

/-- A persisted notification row.  `data` holds the JSON-serialised
structured payload (`null` when absent); timestamps are abstracted to
naturals (units irrelevant, only order matters). -/
structure Notification where
  id : Nat
  userId : String
  type : NotifType
  title : String
  message : String
  data : Option String
  actionUrl : Option String
  read : Bool
  createdAt : Nat
  deriving DecidableEq, Repr

/-- The notification table of the persistent store. -/
abbrev Store := List Notification

/-- Input of NotificationsService.createNotification; `data` is already
the serialised payload (JSON.stringify is applied by the service when
present). -/
structure CreateNotificationData where
  userId : String
  type : NotifType
  title : String
  message : String
  data : Option String
  actionUrl : Option String
  deriving DecidableEq, Repr

/-- prisma.notification.findFirst where { id: notificationId, userId }:
the ownership check shared by markAsRead and deleteNotification. -/
def findOwned (store : Store) (notificationId : Nat) (userId : String) :
    Option Notification :=
  store.find? (fun n => n.id == notificationId && n.userId == userId)

/-- NotificationsService.markAsRead: ownership check via findFirst,
then update where { id } setting read := true; returns the updated row.
On a failed ownership check the service throws
"Notification non trouvée" and the store is untouched. -/
def markAsRead (store : Store) (notificationId : Nat) (userId : String) :
    Store × Except String Notification :=
  match findOwned store notificationId userId with
  | none => (store, Except.error "Notification non trouvée")
  | some n =>
      (store.map (fun m => if m.id == notificationId then { m with read := true } else m),
       Except.ok { n with read := true })

/-- NotificationsService.markAllAsRead: updateMany where
{ userId, read: false } setting read := true; returns the affected
row count. -/
def markAllAsRead (store : Store) (userId : String) : Store × Nat :=
  (store.map (fun m => if m.userId == userId && !m.read then { m with read := true } else m),
   (store.filter (fun m => m.userId == userId && !m.read)).length)

/-- NotificationsService.deleteNotification: ownership check via
findFirst, then delete where { id }.  Success returns
{ success: true }; a failed check throws "Notification non trouvée". -/
def deleteNotification (store : Store) (notificationId : Nat) (userId : String) :
    Store × Except String Unit :=
  match findOwned store notificationId userId with
  | none => (store, Except.error "Notification non trouvée")
  | some _ => (store.filter (fun m => !(m.id == notificationId)), Except.ok ())

/-- NotificationsService.getUnreadCount: count where
{ userId, read: false }. -/
def getUnreadCount (store : Store) (userId : String) : Nat :=
  (store.filter (fun m => m.userId == userId && !m.read)).length

/-- NotificationsService.deleteOldNotifications: cutoffDate is `today`
minus `olderThanDays` (dates counted in days); deleteMany where
{ createdAt < cutoffDate, read: true }.  Returns the deleted count. -/
def deleteOldNotifications (store : Store) (today : Nat) (olderThanDays : Nat := 30) :
    Store × Nat :=
  let cutoffDate := today - olderThanDays
  (store.filter (fun m => !(decide (m.createdAt < cutoffDate) && m.read)),
   (store.filter (fun m => decide (m.createdAt < cutoffDate) && m.read)).length)

/-! ## WebSocket gateway (src/services/websocket.ts) -/

namespace WebSocket

/-- ws readyState constant: socket open and writable. -/
def OPEN : Nat := 1

/-- ws readyState constant: close initiated. -/
def CLOSING : Nat := 2

/-- ws readyState constant: socket fully closed. -/
def CLOSED : Nat := 3

end WebSocket

/-- A server→client JSON frame, as produced by the gateway. -/
inductive WsMsg where
  | connected (message : String) (timestamp : Nat)
  | notification (data : Notification) (timestamp : Nat)
  | pong (timestamp : Nat)
  | subscribed (topics : List String)
  | errorMsg (message : String)
  deriving DecidableEq, Repr

/-- One AuthenticatedWebSocket object: its transport ready state, the
close code/reason when close() was called on it, the frames sent over
it, and the userId/email fields assigned after authentication. -/
structure Conn where
  readyState : Nat
  closeCode : Option (Nat × String)
  sent : List WsMsg
  userId : Option String
  email : Option String
  deriving DecidableEq, Repr

/-- A just-accepted socket: open, not closed, nothing sent,
unauthenticated. -/
def freshConn : Conn :=
  { readyState := WebSocket.OPEN, closeCode := none, sent := [], userId := none,
    email := none }

/-- State of WebSocketNotificationService: `clients` is the
Map<userId, ws> registry (connections referenced by id), `conns` the
table of socket objects. -/
structure WSState where
  clients : List (String × Nat)
  conns : List (Nat × Conn)
  deriving DecidableEq, Repr

/-- Map.get semantics on an association list. -/
def aLookup {α β : Type} [DecidableEq α] (l : List (α × β)) (k : α) : Option β :=
  match l with
  | [] => none
  | (k', v) :: tl => if k' = k then some v else aLookup tl k

/-- Drop every binding of a key (Map.delete semantics; a Map holds at
most one binding per key). -/
def aRemove {α β : Type} [DecidableEq α] (l : List (α × β)) (k : α) : List (α × β) :=
  match l with
  | [] => []
  | (k', v) :: tl => if k' = k then aRemove tl k else (k', v) :: aRemove tl k

/-- Apply `f` to the value bound to a key, leaving other bindings
alone (JS object mutation through the shared reference). -/
def aUpdate {α β : Type} [DecidableEq α] (l : List (α × β)) (k : α) (f : β → β) :
    List (α × β) :=
  match l with
  | [] => []
  | (k', v) :: tl =>
      if k' = k then (k', f v) :: aUpdate tl k f else (k', v) :: aUpdate tl k f

/-- Read a socket object from the connection table. -/
def getConn (st : WSState) (cid : Nat) : Option Conn :=
  aLookup st.conns cid

/-- Mutate one socket object in place. -/
def updateConn (st : WSState) (cid : Nat) (f : Conn → Conn) : WSState :=
  { st with conns := aUpdate st.conns cid f }

/-- Map.set semantics on the registry: any previous binding of the key
is replaced by the new one. -/
def mapSet (m : List (String × Nat)) (k : String) (v : Nat) : List (String × Nat) :=
  (k, v) :: aRemove m k

/-- Map.delete semantics on the registry. -/
def mapDelete (m : List (String × Nat)) (k : String) : List (String × Nat) :=
  aRemove m k

/-- ws.close(code, reason): records the close code and moves the socket
out of the OPEN state.  The registry is not touched here (the 'close'
event handler is a separate step). -/
def closeConn (st : WSState) (cid : Nat) (code : Nat) (reason : String) : WSState :=
  updateConn st cid (fun c =>
    { c with readyState := WebSocket.CLOSING, closeCode := some (code, reason) })

/-- The shared send pattern of sendToClient / sendNotificationToUser:
look the user up in the registry; if a client is found and its
readyState is OPEN, send the frame and return true; otherwise return
false and change nothing. -/
def trySend (st : WSState) (userId : String) (message : WsMsg) : WSState × Bool :=
  match aLookup st.clients userId with
  | none => (st, false)
  | some cid =>
      match getConn st cid with
      | none => (st, false)
      | some c =>
          if c.readyState == WebSocket.OPEN then
            (updateConn st cid (fun d => { d with sent := d.sent ++ [message] }), true)
          else (st, false)

/-- WebSocketNotificationService.sendToClient. -/
def sendToClient (st : WSState) (userId : String) (message : WsMsg) : WSState × Bool :=
  trySend st userId message

/-- WebSocketNotificationService.sendNotificationToUser: wraps the
payload as { type: 'notification', data, timestamp } and sends it to
the user's registered client when that client is OPEN. -/
def sendNotificationToUser (st : WSState) (userId : String) (notification : Notification)
    (now : Nat) : WSState × Bool :=
  trySend st userId (WsMsg.notification notification now)

/-- Decoded JWT payload (SimpleJWTPayload of utils/simple-jwt.ts). -/
structure JWTPayload where
  userId : String
  email : String
  profileType : String
  verified : Bool
  deriving DecidableEq, Repr

/-- JS `a || b` on nullable strings: null and "" are falsy. -/
def jsOr (a b : Option String) : Option String :=
  match a with
  | none => b
  | some s => if s == "" then b else some s

/-- authHeader.replace('Bearer ', ''): drop the Bearer prefix when
present (tokens never contain the literal "Bearer "). -/
def stripBearer (s : String) : String :=
  if s.startsWith "Bearer " then s.drop 7 else s

/-- token = url.searchParams.get('token') || authorization-header
without its Bearer prefix; the subsequent `if (!token)` guard makes an
empty result count as absent. -/
def extractToken (queryToken authHeader : Option String) : Option String :=
  match jsOr queryToken (authHeader.map stripBearer) with
  | none => none
  | some s => if s == "" then none else some s

/-- The server accepting the upgraded socket: a fresh open socket
object enters the connection table under `cid` before the handler
runs. -/
def acceptConn (st : WSState) (cid : Nat) : WSState :=
  { clients := st.clients, conns := (cid, freshConn) :: aRemove st.conns cid }

/-- The successful-authentication tail of handleConnection: assign
userId/email on the socket object, register it in the clients map
(Map.set — replacing any previous binding for that user), then send the
'connected' acknowledgement to that user. -/
def authenticateAndRegister (st : WSState) (cid : Nat) (payload : JWTPayload)
    (now : Nat) : WSState :=
  (sendToClient
    { clients := mapSet st.clients payload.userId cid
    , conns := aUpdate st.conns cid (fun c =>
        { c with userId := some payload.userId, email := some payload.email }) }
    payload.userId (WsMsg.connected "Connecté aux notifications temps réel" now)).1

/-- WebSocketNotificationService.handleConnection.  `verify` is
SimpleJWTService.verifyAccessToken, the opaque credential-checking
primitive, passed as a parameter; `cid` identifies the newly accepted
socket.  No token, or a token that fails verification, closes the
socket with code 4001 and never touches the registry; a valid token
registers the socket under the decoded user identifier and sends the
'connected' acknowledgement. -/
def handleConnection (verify : String → Option JWTPayload) (st : WSState) (cid : Nat)
    (queryToken authHeader : Option String) (now : Nat) : WSState :=
  match extractToken queryToken authHeader with
  | none => closeConn (acceptConn st cid) cid 4001 "Authentication required"
  | some token =>
      match verify token with
      | none => closeConn (acceptConn st cid) cid 4001 "Invalid token"
      | some payload => authenticateAndRegister (acceptConn st cid) cid payload now

/-! ## Notification creation and real-time dispatch
(NotificationsService.createNotification / emitRealTimeNotification) -/

/-- The outcome recorded by emitRealTimeNotification.  The type has no
error case: every path, a thrown exception included, reduces to a log
entry. -/
inductive EmitLog where
  | sent
  | offline
  | unavailable
  | caught (err : String)
  deriving DecidableEq, Repr

/-- NotificationsService.emitRealTimeNotification: read the
process-global wsService; when absent log "not available"; when present
call sendNotificationToUser(userId, projection) inside try/catch, so a
thrown exception becomes a caught log entry.  The gateway is modelled
as an optional send function that may fail (Except). -/
def emitRealTimeNotification
    (wsService : Option (String → Notification → Except String Bool))
    (notification : Notification) : EmitLog :=
  match wsService with
  | none => EmitLog.unavailable
  | some send =>
      match send notification.userId notification with
      | Except.ok true => EmitLog.sent
      | Except.ok false => EmitLog.offline
      | Except.error e => EmitLog.caught e

/-- The row built by prisma.notification.create for the given input:
read defaults to false, createdAt to the current time. -/
def mkNotification (d : CreateNotificationData) (freshId now : Nat) : Notification :=
  { id := freshId, userId := d.userId, type := d.type, title := d.title,
    message := d.message, data := d.data, actionUrl := d.actionUrl,
    read := false, createdAt := now }

/-- prisma.notification.create: appends the new row, or fails when the
store does (dbFail models a thrown database error). -/
def prismaCreate (dbFail : Bool) (d : CreateNotificationData) (freshId now : Nat)
    (store : Store) : Except String (Store × Notification) :=
  if dbFail then Except.error "db error"
  else Except.ok (store ++ [mkNotification d freshId now], mkNotification d freshId now)

/-- Observable outcome of one createNotification call: the resulting
store, the value returned (or error rethrown) to the caller, whether
dispatch was reached, and the dispatch log when it was. -/
structure CreateResult where
  store : Store
  result : Except String Notification
  dispatchAttempted : Bool
  emitLog : Option EmitLog
  deriving Repr

/-- NotificationsService.createNotification: await the durable write
first; on failure rethrow (dispatch never reached); on success call
emitRealTimeNotification — whose outcome cannot alter the store or the
returned value — then return the persisted row. -/
def createNotification (dbFail : Bool)
    (wsService : Option (String → Notification → Except String Bool))
    (d : CreateNotificationData) (freshId now : Nat) (store : Store) : CreateResult :=
  match prismaCreate dbFail d freshId now store with
  | Except.error e =>
      { store := store, result := Except.error e, dispatchAttempted := false,
        emitLog := none }
  | Except.ok (store', n) =>
      { store := store', result := Except.ok n, dispatchAttempted := true,
        emitLog := some (emitRealTimeNotification wsService n) }

/-! ## Paginated listing (NotificationsService.getUserNotifications) -/

/-- Does `needle` occur at the head of the second list? -/
def matchHere : List Char → List Char → Bool
  | [], _ => true
  | _ :: _, [] => false
  | a :: as, b :: bs => a == b && matchHere as bs

/-- Does `needle` occur anywhere in the list? -/
def hasSub (needle : List Char) : List Char → Bool
  | [] => needle.isEmpty
  | b :: bs => matchHere needle (b :: bs) || hasSub needle bs

/-- SQL `contains` on text columns: substring occurrence. -/
def strContains (hay needle : String) : Bool :=
  hasSub needle.toList hay.toList

/-- Filters of the list endpoint (NotificationFilters). -/
structure NotificationFilters where
  type : Option NotifType
  read : Option Bool
  search : Option String
  deriving DecidableEq, Repr

/-- Pagination input (NotificationPagination; the sortBy/sortOrder
choice is modelled by the orderBy argument of getUserNotifications). -/
structure NotificationPagination where
  page : Nat
  limit : Nat
  deriving DecidableEq, Repr

/-- The `where` clause built by getUserNotifications: always the
requesting userId; type and read equality when the filters carry them
(`filters.read !== undefined`); a title-or-message substring match when
a non-empty search string is given (`if (filters.search)` — the empty
string is falsy, so it disables the filter). -/
def matchesWhere (userId : String) (filters : NotificationFilters)
    (n : Notification) : Bool :=
  n.userId == userId
  && (match filters.type with
      | none => true
      | some t => n.type == t)
  && (match filters.read with
      | none => true
      | some b => n.read == b)
  && (match filters.search with
      | none => true
      | some s => if s == "" then true else strContains n.title s || strContains n.message s)

/-- The meta block of the list response. -/
structure ListMeta where
  page : Nat
  limit : Nat
  total : Nat
  totalPages : Nat
  hasNext : Bool
  hasPrev : Bool
  deriving DecidableEq, Repr

/-- The list response: page of rows plus meta. -/
structure ListResult where
  notifications : List Notification
  meta : ListMeta
  deriving Repr

/-- NotificationsService.getUserNotifications: count the rows matching
the where clause, then findMany with the same where clause, an orderBy
(modelled as a reordering function — the sortBy/sortOrder combination),
skip (page-1)*limit and take limit.  Meta: total, Math.ceil
(total/limit) as (total+limit-1)/limit on naturals, hasNext
page*limit < total, hasPrev page > 1. -/
def getUserNotifications (store : Store) (userId : String)
    (filters : NotificationFilters) (pagination : NotificationPagination)
    (orderBy : List Notification → List Notification) : ListResult :=
  { notifications :=
      ((orderBy (store.filter (matchesWhere userId filters))).drop
        ((pagination.page - 1) * pagination.limit)).take pagination.limit
  , meta :=
      { page := pagination.page
      , limit := pagination.limit
      , total := (store.filter (matchesWhere userId filters)).length
      , totalPages :=
          ((store.filter (matchesWhere userId filters)).length + pagination.limit - 1)
            / pagination.limit
      , hasNext := decide (pagination.page * pagination.limit
          < (store.filter (matchesWhere userId filters)).length)
      , hasPrev := decide (pagination.page > 1) } }

/-! ## Shared concrete examples -/

/-- An unread notification owned by user "a". -/
def exA : Notification :=
  { id := 1, userId := "a", type := NotifType.MESSAGE, title := "t1", message := "m1",
    data := none, actionUrl := none, read := false, createdAt := 10 }

/-- A read notification owned by user "a". -/
def exA2 : Notification :=
  { id := 2, userId := "a", type := NotifType.SYSTEM, title := "t2", message := "m2",
    data := none, actionUrl := none, read := true, createdAt := 3 }

/-- An unread notification owned by user "b". -/
def exB : Notification :=
  { id := 3, userId := "b", type := NotifType.SYSTEM, title := "t3", message := "m3",
    data := none, actionUrl := none, read := false, createdAt := 1 }

/-! ## Theorems -/

/-- C2: for every notification creation call the durable write completes
first — on failure the error is rethrown, the store is untouched and
dispatch is never attempted; on success dispatch is attempted but its
outcome (gateway absent, user offline, or a thrown exception, which the
service catches) cannot change the returned value or the persisted
store: the caller always gets the already-persisted notification. -/
theorem createNotification_persist_then_push
    (wsService : Option (String → Notification → Except String Bool))
    (d : CreateNotificationData) (freshId now : Nat) (store : Store) (e : String) :
    (createNotification false wsService d freshId now store).result
        = Except.ok (mkNotification d freshId now)
  ∧ (createNotification false wsService d freshId now store).store
        = store ++ [mkNotification d freshId now]
  ∧ (createNotification false wsService d freshId now store).dispatchAttempted = true
  ∧ (createNotification false (some (fun _ _ => Except.error e)) d freshId now store).result
        = Except.ok (mkNotification d freshId now)
  ∧ (createNotification false (some (fun _ _ => Except.error e)) d freshId now store).store
        = store ++ [mkNotification d freshId now]
  ∧ (createNotification false (some (fun _ _ => Except.error e)) d freshId now store).emitLog
        = some (EmitLog.caught e)
  ∧ (createNotification true wsService d freshId now store).result
        = Except.error "db error"
  ∧ (createNotification true wsService d freshId now store).store = store
  ∧ (createNotification true wsService d freshId now store).dispatchAttempted = false :=
  ⟨rfl, rfl, rfl, rfl, rfl, rfl, rfl, rfl, rfl⟩

/-- C5: when no stored notification has both the requested id and the
requesting user as owner (the id may belong to another user or to
nobody), markAsRead and deleteNotification both fail with the
Not-Found error "Notification non trouvée", return no notification
data, and leave the store unchanged. -/
theorem ownership_isolation (store : Store) (notificationId : Nat) (userId : String)
    (h : ∀ n ∈ store, ¬ (n.id = notificationId ∧ n.userId = userId)) :
    markAsRead store notificationId userId
      = (store, Except.error "Notification non trouvée")
  ∧ deleteNotification store notificationId userId
      = (store, Except.error "Notification non trouvée") := by
  have hf : findOwned store notificationId userId = none := by
    apply List.find?_eq_none.mpr
    intro n hn hb
    exact h n hn (by simpa [Bool.and_eq_true, beq_iff_eq] using hb)
  constructor
  · unfold markAsRead
    rw [hf]
  · unfold deleteNotification
    rw [hf]

/-- Witness for C5: user "a" cannot touch user "b"'s notification. -/
theorem ownership_isolation_witness :
    (∀ n ∈ [exB], ¬ (n.id = 3 ∧ n.userId = "a"))
  ∧ markAsRead [exB] 3 "a" = ([exB], Except.error "Notification non trouvée")
  ∧ deleteNotification [exB] 3 "a" = ([exB], Except.error "Notification non trouvée") := by
  have h : ∀ n ∈ [exB], ¬ (n.id = 3 ∧ n.userId = "a") := by decide
  exact ⟨h, (ownership_isolation [exB] 3 "a" h).1, (ownership_isolation [exB] 3 "a" h).2⟩

/-- The row update applied by markAsRead's prisma.update. -/
def setReadIfId (notificationId : Nat) (m : Notification) : Notification :=
  if m.id == notificationId then { m with read := true } else m

/-- markAsRead unfolded on a successful ownership check. -/
theorem markAsRead_found (store : Store) (notificationId : Nat) (userId : String)
    (n : Notification) (hfind : findOwned store notificationId userId = some n) :
    markAsRead store notificationId userId
      = (store.map (setReadIfId notificationId), Except.ok { n with read := true }) := by
  unfold markAsRead setReadIfId
  rw [hfind]

/-- setReadIfId does not change the fields the ownership predicate
reads, so the predicate is invariant under it. -/
theorem findOwned_map_setRead (store : Store) (notificationId : Nat) (userId : String) :
    findOwned (store.map (setReadIfId notificationId)) notificationId userId
      = (findOwned store notificationId userId).map (setReadIfId notificationId) := by
  unfold findOwned
  rw [List.find?_map]
  have hcong :
      ((fun n => n.id == notificationId && n.userId == userId) ∘ setReadIfId notificationId)
        = (fun n => n.id == notificationId && n.userId == userId) := by
    funext m
    simp only [Function.comp, setReadIfId]
    cases h : m.id == notificationId <;> simp [h]
  rw [hcong]

/-- Applying the markAsRead row update twice is the same as once. -/
theorem setReadIfId_idem (notificationId : Nat) (m : Notification) :
    setReadIfId notificationId (setReadIfId notificationId m)
      = setReadIfId notificationId m := by
  unfold setReadIfId
  cases h : m.id == notificationId <;> simp [h]

/-- C6: marking an owned notification read twice yields the same final
state: the second call is a no-op success returning the record with
read = true and leaving the store exactly as after the first call; and
the update only ever turns read from false to true — a row already
read stays read. -/
theorem markAsRead_idempotent (store : Store) (notificationId : Nat) (userId : String)
    (n : Notification) (hfind : findOwned store notificationId userId = some n) :
    (markAsRead store notificationId userId).2 = Except.ok { n with read := true }
  ∧ markAsRead (markAsRead store notificationId userId).1 notificationId userId
      = ((markAsRead store notificationId userId).1, Except.ok { n with read := true })
  ∧ (∀ (i : Nat) (m : Notification), store[i]? = some m → m.read = true →
      ((markAsRead store notificationId userId).1[i]?.map (fun x => x.read)) = some true) := by
  have h2 : store.find? (fun m => m.id == notificationId && m.userId == userId) = some n :=
    hfind
  have hp0 := List.find?_some h2
  have hp : (n.id == notificationId && n.userId == userId) = true := hp0
  have hpid : (n.id == notificationId) = true := by
    simp only [Bool.and_eq_true] at hp
    exact hp.1
  have h1 := markAsRead_found store notificationId userId n hfind
  have hfn : setReadIfId notificationId n = { n with read := true } := by
    unfold setReadIfId
    rw [hpid]
    simp
  refine ⟨by rw [h1], ?_, ?_⟩
  · rw [h1]
    have hfind2 : findOwned (store.map (setReadIfId notificationId)) notificationId userId
        = some { n with read := true } := by
      rw [findOwned_map_setRead, hfind, Option.map_some', hfn]
    have h2 := markAsRead_found (store.map (setReadIfId notificationId)) notificationId userId
      { n with read := true } hfind2
    rw [h2, List.map_map]
    have hff : setReadIfId notificationId ∘ setReadIfId notificationId
        = setReadIfId notificationId := by
      funext m
      exact setReadIfId_idem notificationId m
    rw [hff]
  · intro i m him hread
    rw [h1]
    simp only [List.getElem?_map, him, Option.map_some']
    unfold setReadIfId
    split
    · rfl
    · exact congrArg some hread

/-- Witness for C6: notification 1 of user "a", marked read twice. -/
theorem markAsRead_idempotent_witness :
    findOwned [exA] 1 "a" = some exA
  ∧ (markAsRead [exA] 1 "a").2 = Except.ok { exA with read := true }
  ∧ markAsRead (markAsRead [exA] 1 "a").1 1 "a"
      = ((markAsRead [exA] 1 "a").1, Except.ok { exA with read := true }) := by
  have h : findOwned [exA] 1 "a" = some exA := by decide
  exact ⟨h, (markAsRead_idempotent [exA] 1 "a" exA h).1,
    (markAsRead_idempotent [exA] 1 "a" exA h).2.1⟩

/-- C7: markAllAsRead reports exactly the user's current unread count
(the number of persisted rows with read = false for that user, which is
what getUnreadCount computes); afterwards the user's unread count is 0;
rows that are not the user's unread rows are untouched; and every row
of the user ends up read. -/
theorem markAllAsRead_unread_count (store : Store) (userId : String) :
    (markAllAsRead store userId).2 = getUnreadCount store userId
  ∧ getUnreadCount (markAllAsRead store userId).1 userId = 0
  ∧ (∀ (i : Nat) (m : Notification), store[i]? = some m →
      ¬ (m.userId = userId ∧ m.read = false) →
      (markAllAsRead store userId).1[i]? = some m)
  ∧ (∀ (i : Nat) (m : Notification), store[i]? = some m → m.userId = userId →
      ((markAllAsRead store userId).1[i]?.map (fun x => x.read)) = some true) := by
  refine ⟨rfl, ?_, ?_, ?_⟩
  · unfold markAllAsRead getUnreadCount
    rw [List.length_eq_zero, List.filter_eq_nil_iff]
    intro m' hm'
    rcases List.mem_map.mp hm' with ⟨m, _, rfl⟩
    by_cases hc : (m.userId == userId && !m.read) = true
    · rw [if_pos hc]
      simp
    · rw [if_neg hc]
      simpa using hc
  · intro i m him hm
    unfold markAllAsRead
    simp only [List.getElem?_map, him, Option.map_some']
    have hc : (m.userId == userId && !m.read) = false := by
      rcases hr : m.read with _ | _
      · rcases hu : m.userId == userId with _ | _
        · simp
        · exact absurd ⟨by simpa using hu, hr⟩ hm
      · simp [hr]
    rw [if_neg (by simp [hc])]
  · intro i m him hu
    unfold markAllAsRead
    simp only [List.getElem?_map, him, Option.map_some']
    by_cases hc : (m.userId == userId && !m.read) = true
    · rw [if_pos hc]
    · rw [if_neg hc]
      have : m.read = true := by
        rcases hr : m.read with _ | _
        · exact absurd (by simp [hu, hr]) hc
        · rfl
      exact congrArg some this

/-- Witness for C7: two rows of user "a" (one unread, one read) and one
of user "b"; mark-all for "a" reports 1 and zeroes "a"'s unread
count. -/
theorem markAllAsRead_unread_count_witness :
    (markAllAsRead [exA, exA2, exB] "a").2 = getUnreadCount [exA, exA2, exB] "a"
  ∧ getUnreadCount (markAllAsRead [exA, exA2, exB] "a").1 "a" = 0
  ∧ [exA, exA2, exB][2]? = some exB
  ∧ (markAllAsRead [exA, exA2, exB] "a").1[2]? = some exB :=
  ⟨(markAllAsRead_unread_count [exA, exA2, exB] "a").1,
   (markAllAsRead_unread_count [exA, exA2, exB] "a").2.1,
   rfl,
   (markAllAsRead_unread_count [exA, exA2, exB] "a").2.2.1 2 exB rfl (by decide)⟩

/-- C8: the retention sweep removes exactly the rows that are read and
strictly older than the cutoff (today minus the max age): a row
survives iff it is stored and not (read and old); in particular an
unread row survives whatever its age; and the reported count is the
number of read-and-old rows. -/
theorem retention_sweep (store : Store) (today olderThanDays : Nat) :
    (∀ m : Notification, m ∈ (deleteOldNotifications store today olderThanDays).1 ↔
        (m ∈ store ∧ ¬ (m.read = true ∧ m.createdAt < today - olderThanDays)))
  ∧ (∀ m ∈ store, m.read = false → m ∈ (deleteOldNotifications store today olderThanDays).1)
  ∧ (deleteOldNotifications store today olderThanDays).2
      = (store.filter (fun m =>
          decide (m.createdAt < today - olderThanDays) && m.read)).length := by
  refine ⟨?_, ?_, rfl⟩
  · intro m
    unfold deleteOldNotifications
    rw [List.mem_filter]
    constructor
    · rintro ⟨hmem, hb⟩
      refine ⟨hmem, ?_⟩
      rintro ⟨hr, hc⟩
      rw [hr] at hb
      simp [hc] at hb
    · rintro ⟨hmem, hnot⟩
      refine ⟨hmem, ?_⟩
      rcases hr : m.read with _ | _
      · simp [hr]
      · have hc : ¬ (m.createdAt < today - olderThanDays) := fun hlt => hnot ⟨hr, hlt⟩
        simp [hr, hc]
  · intro m hmem hr
    unfold deleteOldNotifications
    rw [List.mem_filter]
    exact ⟨hmem, by simp [hr]⟩

/-- Witness for C8: an unread row (exA, created at day 10) survives a
sweep at day 100 with a 30-day age even though it is far older than the
cutoff. -/
theorem retention_sweep_witness :
    exA ∈ [exA, exA2] ∧ exA.read = false
  ∧ exA ∈ (deleteOldNotifications [exA, exA2] 100 30).1 :=
  ⟨by decide, rfl, (retention_sweep [exA, exA2] 100 30).2.1 exA (by decide) rfl⟩

/-! ## Registry helper lemmas -/

/-- Updating the value bound to one key does not change the lookup of a
different key. -/
theorem aLookup_aUpdate_ne {α β : Type} [DecidableEq α] (l : List (α × β)) (k1 k2 : α)
    (f : β → β) (h : k1 ≠ k2) : aLookup (aUpdate l k2 f) k1 = aLookup l k1 := by
  induction l with
  | nil => rfl
  | cons hd tl ih =>
      rcases hd with ⟨k, v⟩
      simp only [aUpdate]
      by_cases hk : k = k2
      · have hk1 : k ≠ k1 := fun he => h (he ▸ hk)
        rw [if_pos hk]
        simp only [aLookup, if_neg hk1, ih]
      · rw [if_neg hk]
        by_cases hk1 : k = k1
        · simp only [aLookup, if_pos hk1]
        · simp only [aLookup, if_neg hk1, ih]

/-- Updating the value bound to a key acts as `f` on its lookup. -/
theorem aLookup_aUpdate_self {α β : Type} [DecidableEq α] (l : List (α × β)) (k2 : α)
    (f : β → β) : aLookup (aUpdate l k2 f) k2 = (aLookup l k2).map f := by
  induction l with
  | nil => rfl
  | cons hd tl ih =>
      rcases hd with ⟨k, v⟩
      simp only [aUpdate]
      by_cases hk : k = k2
      · rw [if_pos hk]
        simp only [aLookup, if_pos hk]
        rfl
      · rw [if_neg hk]
        simp only [aLookup, if_neg hk, ih]

/-- Removing the bindings of one key does not change the lookup of a
different key. -/
theorem aLookup_aRemove_ne {α β : Type} [DecidableEq α] (l : List (α × β)) (k1 k2 : α)
    (h : k1 ≠ k2) : aLookup (aRemove l k2) k1 = aLookup l k1 := by
  induction l with
  | nil => rfl
  | cons hd tl ih =>
      rcases hd with ⟨k, v⟩
      simp only [aRemove]
      by_cases hk : k = k2
      · have hk1 : k ≠ k1 := fun he => h (he ▸ hk)
        rw [if_pos hk, ih]
        simp only [aLookup, if_neg hk1]
      · rw [if_neg hk]
        by_cases hk1 : k = k1
        · simp only [aLookup, if_pos hk1]
        · simp only [aLookup, if_neg hk1, ih]

/-- After removing a key no binding for it remains. -/
theorem aLookup_aRemove_self {α β : Type} [DecidableEq α] (l : List (α × β)) (k2 : α) :
    aLookup (aRemove l k2) k2 = none := by
  induction l with
  | nil => rfl
  | cons hd tl ih =>
      rcases hd with ⟨k, v⟩
      simp only [aRemove]
      by_cases hk : k = k2
      · rw [if_pos hk, ih]
      · rw [if_neg hk]
        simp only [aLookup, if_neg hk, ih]

/-- A key-value pair surviving aRemove was present before. -/
theorem mem_aRemove {α β : Type} [DecidableEq α] (l : List (α × β)) (k2 : α)
    (p : α × β) (hp : p ∈ aRemove l k2) : p ∈ l ∧ p.1 ≠ k2 := by
  induction l with
  | nil => cases hp
  | cons hd tl ih =>
      rcases hd with ⟨k, v⟩
      simp only [aRemove] at hp
      by_cases hk : k = k2
      · rw [if_pos hk] at hp
        rcases ih hp with ⟨h1, h2⟩
        exact ⟨List.mem_cons_of_mem _ h1, h2⟩
      · rw [if_neg hk] at hp
        rcases List.mem_cons.mp hp with h1 | h1
        · exact ⟨h1 ▸ List.mem_cons_self _ _, by simpa [h1] using hk⟩
        · rcases ih h1 with ⟨h2, h3⟩
          exact ⟨List.mem_cons_of_mem _ h2, h3⟩

/-- Whatever branch trySend takes, the client registry is unchanged:
only a socket object's sent list can be mutated. -/
theorem trySend_clients (st : WSState) (u : String) (m : WsMsg) :
    ((trySend st u m).1).clients = st.clients := by
  unfold trySend
  split
  · rfl
  · split
    · rfl
    · split
      · rfl
      · rfl

/-- trySend can only mutate the socket registered for the target user:
any other connection id reads back unchanged. -/
theorem trySend_getConn_ne (st : WSState) (u : String) (m : WsMsg) (c1 : Nat)
    (h : ∀ cid, aLookup st.clients u = some cid → c1 ≠ cid) :
    getConn (trySend st u m).1 c1 = getConn st c1 := by
  unfold trySend
  rcases h1 : aLookup st.clients u with _ | cid
  · rfl
  · rcases h2 : getConn st cid with _ | c
    · simp only [h2]
    · simp only [h2]
      by_cases h3 : (c.readyState == WebSocket.OPEN) = true
      · rw [if_pos h3]
        exact aLookup_aUpdate_ne st.conns c1 cid _ (h cid h1)
      · rw [if_neg h3]

/-- getConn after updateConn at the same id: the stored object with the
mutation applied. -/
theorem getConn_updateConn_self (st : WSState) (cid : Nat) (f : Conn → Conn) :
    getConn (updateConn st cid f) cid = (getConn st cid).map f :=
  aLookup_aUpdate_self st.conns cid f

/-- getConn after updateConn at a different id: unchanged. -/
theorem getConn_updateConn_ne (st : WSState) (cid c1 : Nat) (f : Conn → Conn)
    (h : c1 ≠ cid) :
    getConn (updateConn st cid f) c1 = getConn st c1 :=
  aLookup_aUpdate_ne st.conns c1 cid f h

/-- trySend only ever appends to a socket's sent list: every socket's
readyState, close code, userId and email read back unchanged. -/
theorem trySend_conn_fields (st : WSState) (u : String) (m : WsMsg) (cid : Nat) :
    (getConn (trySend st u m).1 cid).map
        (fun c => (c.readyState, c.closeCode, c.userId, c.email))
      = (getConn st cid).map
        (fun c => (c.readyState, c.closeCode, c.userId, c.email)) := by
  unfold trySend
  rcases h1 : aLookup st.clients u with _ | cid'
  · rfl
  · rcases h2 : getConn st cid' with _ | c
    · simp only [h2]
    · simp only [h2]
      by_cases h3 : (c.readyState == WebSocket.OPEN) = true
      · rw [if_pos h3]
        by_cases he : cid = cid'
        · subst he
          rw [getConn_updateConn_self, h2]
          rfl
        · rw [getConn_updateConn_ne _ _ _ _ he]
      · rw [if_neg h3]

/-- C3: Deliver(user, payload) returns true and sends exactly one
frame { type: 'notification', data: payload, timestamp } — appended to
the registered socket's sent frames, all other state unchanged — iff
the registry holds a socket for that user whose readyState is OPEN;
otherwise it returns false and changes nothing (no frame, no error). -/
theorem deliver_contract (st : WSState) (u : String) (n : Notification) (now : Nat) :
    ((sendNotificationToUser st u n now).2 = true ↔
      (∃ cid c, aLookup st.clients u = some cid ∧ getConn st cid = some c ∧
        c.readyState = WebSocket.OPEN))
  ∧ ((sendNotificationToUser st u n now).2 = false →
      sendNotificationToUser st u n now = (st, false))
  ∧ (∀ (cid : Nat) (c : Conn), aLookup st.clients u = some cid →
      getConn st cid = some c → c.readyState = WebSocket.OPEN →
      sendNotificationToUser st u n now =
        (updateConn st cid
          (fun d => { d with sent := d.sent ++ [WsMsg.notification n now] }), true)) := by
  unfold sendNotificationToUser trySend
  rcases h1 : aLookup st.clients u with _ | cid
  · refine ⟨⟨fun hf => Bool.noConfusion hf, ?_⟩, fun _ => rfl, ?_⟩
    · rintro ⟨cid, c, hc, -, -⟩
      cases hc
    · rintro cid c hc - -
      cases hc
  · rcases h2 : getConn st cid with _ | c
    · simp only [h2]
      refine ⟨⟨fun hf => Bool.noConfusion hf, ?_⟩, fun _ => trivial, ?_⟩
      · rintro ⟨cid', c', hc', hg', -⟩
        injection hc' with he
        subst he
        rw [h2] at hg'
        cases hg'
      · rintro cid' c' hc' hg' -
        injection hc' with he
        subst he
        rw [h2] at hg'
        cases hg'
    · simp only [h2]
      by_cases h3 : (c.readyState == WebSocket.OPEN) = true
      · rw [if_pos h3]
        have h3' : c.readyState = WebSocket.OPEN := by simpa using h3
        refine ⟨⟨fun _ => ⟨cid, c, rfl, h2, h3'⟩, fun _ => rfl⟩,
          fun hf => Bool.noConfusion hf, ?_⟩
        rintro cid' c' hc' - -
        injection hc' with he
        subst he
        rfl
      · rw [if_neg h3]
        have h3' : c.readyState ≠ WebSocket.OPEN := by simpa using h3
        refine ⟨⟨fun hf => Bool.noConfusion hf, ?_⟩, fun _ => rfl, ?_⟩
        · rintro ⟨cid', c', hc', hg', hr'⟩
          injection hc' with he
          subst he
          rw [h2] at hg'
          injection hg' with he2
          subst he2
          exact absurd hr' h3'
        · rintro cid' c' hc' hg' hr'
          injection hc' with he
          subst he
          rw [h2] at hg'
          injection hg' with he2
          subst he2
          exact absurd hr' h3'

/-- A state with user "u" registered to socket 0, which is open. -/
def stOpen : WSState := { clients := [("u", 0)], conns := [(0, freshConn)] }

/-- Witness for C3: delivery to the open socket of "u" succeeds and
appends exactly the notification frame. -/
theorem deliver_contract_witness :
    aLookup stOpen.clients "u" = some 0
  ∧ getConn stOpen 0 = some freshConn
  ∧ freshConn.readyState = WebSocket.OPEN
  ∧ sendNotificationToUser stOpen "u" exA 5 =
      (updateConn stOpen 0
        (fun d => { d with sent := d.sent ++ [WsMsg.notification exA 5] }), true) :=
  ⟨rfl, rfl, rfl, (deliver_contract stOpen "u" exA 5).2.2 0 freshConn rfl rfl rfl⟩

/-- A socket object that is fully closed. -/
def connClosed : Conn := { freshConn with readyState := WebSocket.CLOSED }

/-- A state whose registry still maps user "u" to socket 0, which is
closed (stale entry). -/
def stStale : WSState := { clients := [("u", 0)], conns := [(0, connClosed)] }

/-- C4 counterexample: delivery to "u" finds the registered socket
closed and returns false, but the stale registry entry is NOT removed —
the lookup for "u" still returns socket 0 and the state is exactly the
input state, refuting "that stale registry entry is removed as part of
the failed delivery attempt". -/
theorem stale_cleanup_counterexample :
    (sendNotificationToUser stStale "u" exA 0).2 = false
  ∧ aLookup ((sendNotificationToUser stStale "u" exA 0).1).clients "u" = some 0
  ∧ (sendNotificationToUser stStale "u" exA 0).1 = stStale :=
  ⟨rfl, rfl, rfl⟩

/-- C4 amended: when Deliver finds a connection registered for the
target user whose readyState is not OPEN, it returns false without
surfacing any error and leaves the state — the stale registry entry
included — completely unchanged; no cleanup happens in
sendNotificationToUser. -/
theorem stale_cleanup_amended (st : WSState) (u : String) (n : Notification) (now : Nat)
    (cid : Nat) (c : Conn)
    (hreg : aLookup st.clients u = some cid)
    (hconn : getConn st cid = some c)
    (hstale : c.readyState ≠ WebSocket.OPEN) :
    sendNotificationToUser st u n now = (st, false)
  ∧ aLookup ((sendNotificationToUser st u n now).1).clients u = some cid := by
  have h : sendNotificationToUser st u n now = (st, false) := by
    unfold sendNotificationToUser trySend
    simp only [hreg, hconn]
    rw [if_neg (fun hb => hstale (by simpa using hb))]
  exact ⟨h, by rw [h]; exact hreg⟩

/-- Witness for C4's amended claim at the stale concrete state. -/
theorem stale_cleanup_amended_witness :
    aLookup stStale.clients "u" = some 0
  ∧ getConn stStale 0 = some connClosed
  ∧ connClosed.readyState ≠ WebSocket.OPEN
  ∧ sendNotificationToUser stStale "u" exA2 7 = (stStale, false) :=
  ⟨rfl, rfl, by decide,
   (stale_cleanup_amended stStale "u" exA2 7 0 connClosed rfl rfl (by decide)).1⟩

/-- Lookup at the head of an association list. -/
theorem aLookup_cons_self {α β : Type} [DecidableEq α] (k : α) (v : β)
    (tl : List (α × β)) : aLookup ((k, v) :: tl) k = some v := by
  simp [aLookup]

/-- getConn on a literal state reads the conns field. -/
theorem getConn_mk (cl : List (String × Nat)) (cn : List (Nat × Conn)) (cid : Nat) :
    getConn { clients := cl, conns := cn } cid = aLookup cn cid := rfl

/-- The just-accepted socket reads back fresh. -/
theorem getConn_acceptConn_self (st : WSState) (cid : Nat) :
    getConn (acceptConn st cid) cid = some freshConn := by
  unfold acceptConn
  rw [getConn_mk]
  exact aLookup_cons_self _ _ _

/-- C9: on the real-time handshake, a missing bearer credential (from
both the token query parameter and the authorization header) closes the
socket with code 4001 and creates no registry entry; a credential that
fails verification closes it with the same code 4001 and creates no
registry entry; a valid credential registers the socket under the
decoded user identifier, open and unclosed, with the decoded identity
assigned. -/
theorem handshake_auth (verify : String → Option JWTPayload) (st : WSState) (cid : Nat)
    (qt ah : Option String) (now : Nat) :
    (extractToken qt ah = none →
        (handleConnection verify st cid qt ah now).clients = st.clients
      ∧ ((getConn (handleConnection verify st cid qt ah now) cid).map
            (fun c => (c.readyState, c.closeCode)))
          = some (WebSocket.CLOSING, some (4001, "Authentication required")))
  ∧ (∀ tok : String, extractToken qt ah = some tok → verify tok = none →
        (handleConnection verify st cid qt ah now).clients = st.clients
      ∧ ((getConn (handleConnection verify st cid qt ah now) cid).map
            (fun c => (c.readyState, c.closeCode)))
          = some (WebSocket.CLOSING, some (4001, "Invalid token")))
  ∧ (∀ (tok : String) (p : JWTPayload), extractToken qt ah = some tok →
      verify tok = some p →
        aLookup (handleConnection verify st cid qt ah now).clients p.userId = some cid
      ∧ ((getConn (handleConnection verify st cid qt ah now) cid).map
            (fun c => (c.readyState, c.closeCode, c.userId, c.email)))
          = some (WebSocket.OPEN, none, some p.userId, some p.email)) := by
  refine ⟨?_, ?_, ?_⟩
  · intro htok
    unfold handleConnection
    simp only [htok]
    refine ⟨rfl, ?_⟩
    unfold closeConn
    rw [getConn_updateConn_self, getConn_acceptConn_self]
    rfl
  · intro tok htok hver
    unfold handleConnection
    simp only [htok, hver]
    refine ⟨rfl, ?_⟩
    unfold closeConn
    rw [getConn_updateConn_self, getConn_acceptConn_self]
    rfl
  · intro tok p htok hver
    unfold handleConnection
    simp only [htok, hver]
    unfold authenticateAndRegister sendToClient
    constructor
    · rw [trySend_clients]
      exact aLookup_cons_self _ _ _
    · rw [trySend_conn_fields, getConn_mk, aLookup_aUpdate_self,
        show (acceptConn st cid).conns = ((cid, freshConn) :: aRemove st.conns cid) from rfl,
        aLookup_cons_self]
      rfl

/-- A concrete verifier: accepts exactly the credential "tokU" of user
"u". -/
def exVerify : String → Option JWTPayload := fun t =>
  if t = "tokU"
  then some { userId := "u", email := "u@x", profileType := "STARTUP", verified := true }
  else none

/-- Witness for C9: no token → rejected, registry untouched; invalid
token → rejected by the verifier; valid token → registered under
"u". -/
theorem handshake_auth_witness :
    extractToken none none = none
  ∧ (handleConnection exVerify stOpen 5 none none 9).clients = stOpen.clients
  ∧ extractToken (some "bad") none = some "bad"
  ∧ exVerify "bad" = none
  ∧ (handleConnection exVerify stOpen 6 (some "bad") none 9).clients = stOpen.clients
  ∧ extractToken (some "tokU") none = some "tokU"
  ∧ aLookup (handleConnection exVerify stOpen 7 (some "tokU") none 9).clients "u"
      = some 7 := by
  refine ⟨rfl, ?_, rfl, rfl, ?_, rfl, ?_⟩
  · exact ((handshake_auth exVerify stOpen 5 none none 9).1 rfl).1
  · exact ((handshake_auth exVerify stOpen 6 (some "bad") none 9).2.1 "bad" rfl rfl).1
  · exact ((handshake_auth exVerify stOpen 7 (some "tokU") none 9).2.2 "tokU"
      { userId := "u", email := "u@x", profileType := "STARTUP", verified := true }
      rfl rfl).1

/-- The empty gateway state (service start-up). -/
def emptyWS : WSState := { clients := [], conns := [] }

/-- State after user "u" connects socket 0 with a valid credential. -/
def exReg1 : WSState := handleConnection exVerify emptyWS 0 (some "tokU") none 0

/-- State after user "u" then connects a second socket 1 with a valid
credential. -/
def exReg2 : WSState := handleConnection exVerify exReg1 1 (some "tokU") none 1

/-- C1 counterexample: after a second connection (socket 1) is accepted
and registered for user "u", Lookup("u") indeed returns only the second
socket, but the first socket (0) was never closed: its readyState is
still OPEN and close() was never called on it — refuting "the first
connection is closed". -/
theorem registry_exclusivity_counterexample :
    aLookup exReg2.clients "u" = some 1
  ∧ ((getConn exReg2 0).map (fun c => (c.readyState, c.closeCode)))
      = some (WebSocket.OPEN, none) :=
  ⟨rfl, rfl⟩

/-- C1 amended: registering a second live connection for a user
replaces the registry entry — Lookup afterwards returns only the second
connection and no registry binding for the first remains — but the
first connection is NOT closed by the service: its socket object is
left exactly as it was (in particular its readyState and close-code are
untouched). -/
theorem registry_exclusivity_amended (verify : String → Option JWTPayload)
    (st : WSState) (u tok : String) (c1 c2 : Nat) (p : JWTPayload)
    (qt ah : Option String) (now : Nat)
    (hne : c1 ≠ c2)
    (hreg : aLookup st.clients u = some c1)
    (htok : extractToken qt ah = some tok)
    (hver : verify tok = some p)
    (huid : p.userId = u) :
    aLookup (handleConnection verify st c2 qt ah now).clients u = some c2
  ∧ (∀ v : Nat, (u, v) ∈ (handleConnection verify st c2 qt ah now).clients → v = c2)
  ∧ getConn (handleConnection verify st c2 qt ah now) c1 = getConn st c1 := by
  unfold handleConnection
  simp only [htok, hver]
  unfold authenticateAndRegister sendToClient
  subst huid
  refine ⟨?_, ?_, ?_⟩
  · rw [trySend_clients]
    exact aLookup_cons_self _ _ _
  · intro v hv
    rw [trySend_clients] at hv
    have hv' : (p.userId, v) ∈ ((p.userId, c2) :: aRemove (acceptConn st c2).clients p.userId) :=
      hv
    rcases List.mem_cons.mp hv' with h | h
    · exact congrArg Prod.snd h
    · rcases mem_aRemove _ _ _ h with ⟨-, hne2⟩
      exact absurd rfl hne2
  · rw [trySend_getConn_ne]
    · rw [getConn_mk, aLookup_aUpdate_ne _ _ _ _ hne,
        show (acceptConn st c2).conns = ((c2, freshConn) :: aRemove st.conns c2) from rfl]
      simp only [aLookup]
      rw [if_neg (fun he => hne he.symm)]
      exact aLookup_aRemove_ne st.conns c1 c2 hne
    · intro cid hcid
      have h2 : some c2 = some cid :=
        (aLookup_cons_self p.userId c2 (aRemove (acceptConn st c2).clients p.userId)).symm.trans
          hcid
      injection h2 with he
      exact he ▸ hne

/-- Witness for C1's amended claim: "u" is registered to socket 0 in
exReg1; connecting socket 1 re-registers "u" to 1 and leaves socket 0's
object untouched. -/
theorem registry_exclusivity_amended_witness :
    (0 : Nat) ≠ 1
  ∧ aLookup exReg1.clients "u" = some 0
  ∧ aLookup (handleConnection exVerify exReg1 1 (some "tokU") none 1).clients "u" = some 1
  ∧ getConn (handleConnection exVerify exReg1 1 (some "tokU") none 1) 0
      = getConn exReg1 0 := by
  refine ⟨by decide, rfl, ?_, ?_⟩
  · exact (registry_exclusivity_amended exVerify exReg1 "u" "tokU" 0 1
      { userId := "u", email := "u@x", profileType := "STARTUP", verified := true }
      (some "tokU") none 1 (by decide) rfl rfl rfl rfl).1
  · exact (registry_exclusivity_amended exVerify exReg1 "u" "tokU" 0 1
      { userId := "u", email := "u@x", profileType := "STARTUP", verified := true }
      (some "tokU") none 1 (by decide) rfl rfl rfl rfl).2.2

/-- C10: for any positive limit and any orderBy that only reorders rows
(every sortBy/sortOrder combination does), the list endpoint returns at
most `limit` rows, all owned by the requesting user; total counts
exactly the rows matching the where clause; totalPages is the ceiling
of total/limit (characterised by total ≤ limit·totalPages <
total + limit); hasNext holds iff page·limit < total; hasPrev holds iff
page > 1. -/
theorem pagination_meta (store : Store) (u : String) (filters : NotificationFilters)
    (page limit : Nat) (orderBy : List Notification → List Notification)
    (r : ListResult)
    (hperm : ∀ l : List Notification, (orderBy l).Perm l)
    (hlimit : 0 < limit)
    (hr : r = getUserNotifications store u filters ⟨page, limit⟩ orderBy) :
    r.notifications.length ≤ limit
  ∧ (∀ n ∈ r.notifications, n.userId = u)
  ∧ r.meta.total = (store.filter (matchesWhere u filters)).length
  ∧ r.meta.total ≤ limit * r.meta.totalPages
  ∧ limit * r.meta.totalPages < r.meta.total + limit
  ∧ (r.meta.hasNext = true ↔ page * limit < r.meta.total)
  ∧ (r.meta.hasPrev = true ↔ 1 < page) := by
  subst hr
  have hd := Nat.div_add_mod
    ((store.filter (matchesWhere u filters)).length + limit - 1) limit
  have hm : ((store.filter (matchesWhere u filters)).length + limit - 1) % limit < limit :=
    Nat.mod_lt _ hlimit
  refine ⟨?_, ?_, rfl, ?_, ?_, ?_, ?_⟩
  · have h1 : (((orderBy (store.filter (matchesWhere u filters))).drop
        ((page - 1) * limit)).take limit).length ≤ limit := by
      rw [List.length_take]
      exact min_le_left _ _
    exact h1
  · intro n hn
    have h4 := (List.mem_filter.mp ((hperm _).mem_iff.mp
      (List.mem_of_mem_drop (List.mem_of_mem_take hn)))).2
    unfold matchesWhere at h4
    simp only [Bool.and_eq_true] at h4
    exact beq_iff_eq.mp h4.1.1.1
  · have h5 : (store.filter (matchesWhere u filters)).length ≤
        limit * (((store.filter (matchesWhere u filters)).length + limit - 1) / limit) := by
      omega
    exact h5
  · have h6 : limit * (((store.filter (matchesWhere u filters)).length + limit - 1) / limit)
        < (store.filter (matchesWhere u filters)).length + limit := by
      omega
    exact h6
  · exact decide_eq_true_iff
  · exact decide_eq_true_iff

/-- Witness for C10: three stored rows, user "a", no filters, page 1,
limit 10, identity ordering. -/
theorem pagination_meta_witness :
    (∀ l : List Notification, (id l).Perm l)
  ∧ (0 : Nat) < 10
  ∧ (getUserNotifications [exA, exA2, exB] "a"
      { type := none, read := none, search := none } { page := 1, limit := 10 }
      id).notifications.length ≤ 10
  ∧ (getUserNotifications [exA, exA2, exB] "a"
      { type := none, read := none, search := none } { page := 1, limit := 10 }
      id).meta.total
      = ([exA, exA2, exB].filter
          (matchesWhere "a" { type := none, read := none, search := none })).length :=
  ⟨fun l => List.Perm.refl l, by decide,
   (pagination_meta [exA, exA2, exB] "a"
      { type := none, read := none, search := none } 1 10 id _
      (fun l => List.Perm.refl l) (by decide) rfl).1,
   (pagination_meta [exA, exA2, exB] "a"
      { type := none, read := none, search := none } 1 10 id _
      (fun l => List.Perm.refl l) (by decide) rfl).2.2.1⟩

end PME360
